import Mathlib

/-!
A shallow embedding of the ts-websocket connection controller
(`src/controllers/WebSocketController.ts`, `src/services/AuthService.ts`,
`src/api/WebSocketManager.ts`) together with proofs of the behavioural
properties stated in the specification.

Modelling conventions:

* JavaScript JSON values are the inductive type `Json`; object fields keep
  insertion order, exactly as JavaScript objects and `JSON.stringify` do.
* `JSON.parse` and `JSON.stringify` are external JavaScript builtins; an
  inbound frame is therefore represented by its parse result
  (`Option Json`, `none` meaning the builtin threw), and a `send` effect
  carries the `Json` value handed to `JSON.stringify`.  Serialisation of a
  `Json` value is injective (object key order is preserved), so equality of
  payload values coincides with equality of the wire bytes.
* The side effects the controller performs (socket writes, closes, log
  lines, hook invocations) are reified as a list of `Effect`s, in the order
  the code performs them.
* Client-supplied hooks and the custom message handler are opaque functions
  `Json → Except Unit Unit`; an `Except.error` result models the callback
  throwing.  The marker effects `callBeforeSend` / `callAfterSend` /
  `callOnMessage` record that the controller invoked the callback.
-/

namespace TsWebSocket

/-- JSON values at the wire boundary of the controller.  Object fields keep
insertion order, matching JavaScript objects and `JSON.stringify`. -/
inductive Json where
  | null : Json
  | bool (b : Bool) : Json
  | num (n : Int) : Json
  | str (s : String) : Json
  | arr (elems : List Json) : Json
  | obj (fields : List (String × Json)) : Json

/-- Field lookup in a JavaScript object: the first binding for the key. -/
def lookupField : List (String × Json) → String → Option Json
  | [], _ => none
  | (k, v) :: rest, key => if k = key then some v else lookupField rest key

/-- JavaScript property assignment `o[key] = v` on an object: overwrite the
existing binding in place, or append a new one (insertion order). -/
def setField : List (String × Json) → String → Json → List (String × Json)
  | [], key, v => [(key, v)]
  | (k, w) :: rest, key, v =>
      if k = key then (key, v) :: rest else (k, w) :: setField rest key v

/-- Property read `j[key]` as observed through `JSON.stringify`: only
objects expose fields. -/
def Json.getField : Json → String → Option Json
  | .obj fields, key => lookupField fields key
  | _, _ => none

/-- The statement `message.sender = user` from the message listener
(`WebSocketController.ts` line 150), under the strict-mode semantics of the
compiled ES module: assignment on an object overwrites or appends the
`sender` field; assignment on an array attaches an expando property that
`JSON.stringify` then omits (so the observable value is unchanged); and
assignment on `null` or a primitive throws a `TypeError`, which the
surrounding `try` block catches (`none`). -/
def stampSender : Json → String → Option Json
  | .obj fields, user => some (.obj (setField fields "sender" (.str user)))
  | .arr elems, _ => some (.arr elems)
  | _, _ => none

/-- The `try` block of the message listener (`WebSocketController.ts` lines
148-150): `JSON.parse` (represented by its result) followed by
`message.sender = user`.  `none` means the block threw. -/
def decodeFrame (parsed : Option Json) (user : String) : Option Json :=
  match parsed with
  | none => none
  | some j => stampSender j user

/-- The `ws` readyState constants `CONNECTING`, `OPEN`, `CLOSING`,
`CLOSED`. -/
inductive ReadyState where
  | CONNECTING : ReadyState
  | OPEN : ReadyState
  | CLOSING : ReadyState
  | CLOSED : ReadyState
deriving DecidableEq, Repr

/-- A client-supplied callback (`beforeSend`, `afterSend`, `onMessage`):
invoked on the message, it either returns (`ok`) or throws (`error`). -/
abbrev Hook := Json → Except Unit Unit

/-- Whether invoking the callback on this message throws. -/
def hookFails (f : Hook) (m : Json) : Bool :=
  match f m with
  | .ok _ => false
  | .error _ => true

/-- The observable actions of the controller, in program order:
`send sock payload` is `sock.send(JSON.stringify payload)`;
`closeConn sock code reason` is `sock.close(code, reason)`;
the three `call…` markers record invocation of the corresponding
client-supplied callback; `closeAcceptor` is `wss.close()`. -/
inductive Effect where
  | send (sock : Nat) (payload : Json) : Effect
  | closeConn (sock : Nat) (code : Option Nat) (reason : Option String) : Effect
  | logInfo (msg : String) : Effect
  | logWarn (msg : String) : Effect
  | logError (msg : String) : Effect
  | callBeforeSend (m : Json) : Effect
  | callAfterSend (m : Json) : Effect
  | callOnMessage (m : Json) : Effect
  | closeAcceptor : Effect

/-- Effects that close a socket or the acceptor. -/
def isCloseEffect : Effect → Bool
  | .closeConn _ _ _ => true
  | .closeAcceptor => true
  | _ => false

/-- The mutable state of a `WebSocketController` instance together with the
sockets it can observe: `clients` is the `Map<WebSocket, string>` registry
(insertion-ordered, like a JS `Map`); `wssClients` is the `wss.clients` set
maintained by the `ws` library; `socketStates` tracks each socket's
readyState; `acceptorOpen` records whether `wss` still accepts upgrades;
the last three fields are the hook/handler configuration. -/
structure ControllerState where
  clients : List (Nat × String)
  wssClients : List Nat
  socketStates : List (Nat × ReadyState)
  acceptorOpen : Bool
  beforeSend : Option Hook
  afterSend : Option Hook
  onMessage : Option Hook

/-- Assoc-list lookup for socket ready states. -/
def lookupState : List (Nat × ReadyState) → Nat → Option ReadyState
  | [], _ => none
  | (k, v) :: rest, key => if k = key then some v else lookupState rest key

/-- `sock.readyState`; a socket the model never saw is `CLOSED`. -/
def readyStateOf (st : ControllerState) (sock : Nat) : ReadyState :=
  (lookupState st.socketStates sock).getD .CLOSED

/-- Upsert into the ready-state table. -/
def setState : List (Nat × ReadyState) → Nat → ReadyState → List (Nat × ReadyState)
  | [], key, v => [(key, v)]
  | (k, w) :: rest, key, v =>
      if k = key then (key, v) :: rest else (k, w) :: setState rest key v

/-- The state transition of `sock.close(...)` in the `ws` library: an OPEN
or CONNECTING socket moves to CLOSING (the close handshake starts); calling
close on a CLOSING or CLOSED socket is a no-op. -/
def applyWsClose (st : ControllerState) (sock : Nat) : ControllerState :=
  match readyStateOf st sock with
  | .OPEN => { st with socketStates := setState st.socketStates sock .CLOSING }
  | .CONNECTING => { st with socketStates := setState st.socketStates sock .CLOSING }
  | _ => st

/-- `Map.set` on the registry: overwrite the binding in place or append. -/
def mapSet : List (Nat × String) → Nat → String → List (Nat × String)
  | [], key, v => [(key, v)]
  | (k, w) :: rest, key, v =>
      if k = key then (key, v) :: rest else (k, w) :: mapSet rest key v

/-- `Map.get` on the registry. -/
def mapGet : List (Nat × String) → Nat → Option String
  | [], _ => none
  | (k, v) :: rest, key => if k = key then some v else mapGet rest key

/-- `Map.delete` on the registry. -/
def mapDelete (l : List (Nat × String)) (sock : Nat) : List (Nat × String) :=
  l.filter (fun p => p.1 != sock)

/-- Whether the registry has an entry for this socket. -/
def mapHasKey (l : List (Nat × String)) (sock : Nat) : Bool :=
  l.any (fun p => p.1 == sock)

/-- Split a character list at every occurrence of `sep`, like JavaScript
`String.prototype.split` (an external builtin, modelled here). -/
def splitChar (sep : Char) : List Char → List (List Char)
  | [] => [[]]
  | c :: rest =>
      let r := splitChar sep rest
      if c = sep then [] :: r
      else
        match r with
        | [] => [[c]]
        | g :: gs => (c :: g) :: gs

/-- Value of an ASCII hex digit. -/
def hexVal (c : Char) : Option Nat :=
  if 48 ≤ c.toNat ∧ c.toNat ≤ 57 then some (c.toNat - 48)
  else if 97 ≤ c.toNat ∧ c.toNat ≤ 102 then some (c.toNat - 87)
  else if 65 ≤ c.toNat ∧ c.toNat ≤ 70 then some (c.toNat - 55)
  else none

/-- The `application/x-www-form-urlencoded` decoding performed by the
`URLSearchParams` builtin: `+` becomes a space and `%hh` sequences decode
to the corresponding code point (ASCII model of the byte decoding). -/
def percentDecode : List Char → List Char
  | [] => []
  | '%' :: a :: b :: rest =>
      match hexVal a, hexVal b with
      | some x, some y => Char.ofNat (16 * x + y) :: percentDecode rest
      | _, _ => '%' :: percentDecode (a :: b :: rest)
  | '+' :: rest => ' ' :: percentDecode rest
  | c :: rest => c :: percentDecode rest

/-- Split one `key=value` segment at the first `=`; a segment without `=`
has no value part. -/
def breakEq : List Char → List Char × Option (List Char)
  | [] => ([], none)
  | '=' :: rest => ([], some rest)
  | c :: rest =>
      let r := breakEq rest
      (c :: r.1, r.2)

/-- Parsing done by `new URLSearchParams(qs)` (external builtin, modelled):
split on `&`, drop empty segments, split each segment at the first `=`,
decode both sides; a missing value is the empty string. -/
def parseQuery (qs : List Char) : List (String × String) :=
  (splitChar '&' qs).filterMap (fun seg =>
    match seg with
    | [] => none
    | _ =>
        let r := breakEq seg
        some (String.mk (percentDecode r.1),
              String.mk (percentDecode (r.2.getD []))))

/-- `URLSearchParams.get(name)`: the value of the first pair with this key. -/
def searchParamsGet : List (String × String) → String → Option String
  | [], _ => none
  | (k, v) :: rest, name => if k = name then some v else searchParamsGet rest name

/-- `WebSocketController.extractToken` (`WebSocketController.ts` lines
210-218): a falsy (`undefined` or empty) url yields `null`; otherwise the
token parameter is read from `url.split('?')[1]` via `URLSearchParams`
(when the url has no `?`, that index is `undefined` and the parameter set
is empty). -/
def extractToken (url : Option String) : Option String :=
  match url with
  | none => none
  | some u =>
      if u = "" then none
      else
        match splitChar '?' u.data with
        | _ :: queryPart :: _ => searchParamsGet (parseQuery queryPart) "token"
        | _ => none

/-- JavaScript truthiness of a `string | null` value: `null` and the empty
string are falsy. -/
def jsTruthyStr : Option String → Bool
  | none => false
  | some s => s != ""

/-- The error payload sent on failed authentication. -/
def authFailedPayload : Json := .obj [("error", .str "Authentication Failed")]

/-- The error payload sent on a decode failure. -/
def invalidJsonPayload : Json := .obj [("error", .str "Invalid JSON format")]

/-- The error payload sent on a processing failure. -/
def internalErrorPayload : Json := .obj [("error", .str "Internal server error")]

/-- The authentication gate and registration part of
`WebSocketController.onConnection` (`WebSocketController.ts` lines
130-143).  `verify` is the injected `authService.verifyToken`.  The socket
is already a member of `wssClients` (the `ws` library adds it during
`handleUpgrade`, before the `connection` event fires). -/
def onConnection (verify : String → Option String) (st : ControllerState)
    (sock : Nat) (url : Option String) : ControllerState × List Effect :=
  let token := extractToken url
  let username : Option String :=
    if jsTruthyStr token then verify (token.getD "") else none
  if jsTruthyStr token && !(jsTruthyStr username) then
    (applyWsClose st sock,
     [.send sock authFailedPayload,
      .closeConn sock (some 1008) (some "Authentication Failed"),
      .logWarn "WebSocket connection closed due to failed authentication."])
  else
    let user := if jsTruthyStr username then username.getD "" else "Anonymous"
    ({ st with clients := mapSet st.clients sock user },
     [.logInfo ("User connected: " ++ user)])

/-- Rendering of `message.sender` inside the broadcast log template
literal.  After sender stamping the field is always a string; the coerced
display of the other value shapes is abbreviated. -/
def senderDisplay (message : Json) : String :=
  match message.getField "sender" with
  | some (.str s) => s
  | some .null => "null"
  | some (.bool true) => "true"
  | some (.bool false) => "false"
  | _ => "undefined"

/-- `WebSocketController.broadcastMessage` (`WebSocketController.ts` lines
194-201): for each member of `wss.clients` whose readyState is `OPEN`,
send the serialised message; then log one summary line naming the
sender. -/
def broadcastMessage (st : ControllerState) (message : Json) : List Effect :=
  (st.wssClients.filter
      (fun c => decide (readyStateOf st c = ReadyState.OPEN))).map
    (fun c => Effect.send c message)
  ++ [.logInfo ("Broadcasted message from " ++ senderDisplay message)]

/-- Run an optional callback: the marker effect records the invocation, the
flag records whether it threw. -/
def hookStep (h : Option Hook) (mark : Json → Effect) (m : Json) :
    List Effect × Bool :=
  match h with
  | none => ([], false)
  | some f => ([mark m], hookFails f m)

/-- Sequence steps inside a `try` block: effects accumulate until the first
step that throws, which aborts the remaining steps. -/
def seqTry : List (List Effect × Bool) → List Effect × Bool
  | [] => ([], false)
  | step :: rest =>
      if step.2 then (step.1, true)
      else
        let r := seqTry rest
        (step.1 ++ r.1, r.2)

/-- The body of the dispatch `try` block (`WebSocketController.ts` lines
158-171): a configured custom handler runs alone; otherwise the default
sequence runs: `beforeSend` if present, then the broadcast, then
`afterSend` if present.  The flag records whether the block threw. -/
def dispatchMessage (st : ControllerState) (m : Json) : List Effect × Bool :=
  match st.onMessage with
  | some h => ([Effect.callOnMessage m], hookFails h m)
  | none =>
      seqTry [hookStep st.beforeSend Effect.callBeforeSend m,
              (broadcastMessage st m, false),
              hookStep st.afterSend Effect.callAfterSend m]

/-- The callback, if present, does not throw on this message. -/
def hookOk (h : Option Hook) (m : Json) : Prop :=
  ∀ f, h = some f → hookFails f m = false

/-- The invocation marker an optional callback leaves in the effect
trace. -/
def hookMark (h : Option Hook) (mark : Json → Effect) (m : Json) : List Effect :=
  match h with
  | none => []
  | some _ => [mark m]

/-- The `message` listener installed by `onConnection`
(`WebSocketController.ts` lines 145-176).  `user` is the identity captured
by the listener closure at connection time; `parsed` is the result of the
`JSON.parse` builtin on the frame.  A decode failure logs, answers with the
invalid-format payload and closes the connection; a dispatch failure logs
and answers with the internal-error payload but leaves the connection
open.  The engine-specific exception text interpolated into the two log
lines is elided. -/
def handleMessage (st : ControllerState) (sock : Nat) (user : String)
    (parsed : Option Json) : ControllerState × List Effect :=
  match decodeFrame parsed user with
  | none =>
      (applyWsClose st sock,
       [.logError "Error parsing message",
        .send sock invalidJsonPayload,
        .closeConn sock none none])
  | some message =>
      let r := dispatchMessage st message
      if r.2 then
        (st, r.1 ++ [.logError "Error processing message",
                     .send sock internalErrorPayload])
      else
        (st, r.1)

/-- The `close` listener installed by `onConnection`
(`WebSocketController.ts` lines 178-181) together with the bookkeeping the
`ws` library performs when the close handshake of a socket completes: the
registry entry is deleted, the socket leaves `wss.clients` and its state
becomes `CLOSED`. -/
def onCloseEvent (st : ControllerState) (sock : Nat) (user : String) :
    ControllerState × List Effect :=
  ({ st with
      clients := mapDelete st.clients sock,
      wssClients := st.wssClients.filter (fun c => c != sock),
      socketStates := setState st.socketStates sock .CLOSED },
   [.logInfo ("User disconnected: " ++ user)])

/-- `WebSocketController.close` (`WebSocketController.ts` lines 223-230):
issue `close(1001, 'Server shutting down')` to every registered
connection, then close the acceptor (`wss.close`), whose callback logs
completion. -/
def closeController (st : ControllerState) : ControllerState × List Effect :=
  let st1 := st.clients.foldl (fun s p => applyWsClose s p.1) st
  ({ st1 with acceptorOpen := false },
   st.clients.map
      (fun p => Effect.closeConn p.1 (some 1001) (some "Server shutting down"))
    ++ [Effect.closeAcceptor, Effect.logWarn "WebSocket server closed."])

/-- Completion of the close handshakes started by `closeController`: the
close event of each listed connection fires and its listener runs. -/
def settleCloseEvents (st : ControllerState) (socks : List (Nat × String)) :
    ControllerState :=
  socks.foldl (fun s p => (onCloseEvent s p.1 p.2).1) st

/-- The two optional lifecycle hooks of the configuration object. -/
structure HookConfig where
  beforeSend : Option Hook
  afterSend : Option Hook

/-- The configuration consumed by the controller (`utils/Config.ts`); the
route-setup callback and transport option passthrough do not influence the
modelled behaviour and are omitted. -/
structure Config where
  port : Nat
  secretKey : String
  tokenExpiry : String
  hooks : Option HookConfig
  enableLogging : Bool
  onMessage : Option Hook

/-- The `WebSocketController` constructor (`WebSocketController.ts` lines
82-94): fresh registry and client set, hooks taken from
`config.hooks?.beforeSend` / `config.hooks?.afterSend`, handler from
`config.onMessage`. -/
def mkController (config : Config) : ControllerState :=
  { clients := [],
    wssClients := [],
    socketStates := [],
    acceptorOpen := true,
    beforeSend := config.hooks.bind HookConfig.beforeSend,
    afterSend := config.hooks.bind HookConfig.afterSend,
    onMessage := config.onMessage }

/-- `WebSocketController.setLifecycleHooks` (`WebSocketController.ts`
lines 102-108): unconditionally assign both hook fields from the
arguments. -/
def setLifecycleHooks (st : ControllerState) (beforeSend afterSend : Option Hook) :
    ControllerState :=
  { st with beforeSend := beforeSend, afterSend := afterSend }

/-- The claims of a JWT as used by `AuthService`: the embedded username and
the expiry timestamp (seconds).  The issued-at claim carries no behaviour
and is omitted. -/
structure JwtPayload where
  username : String
  exp : Nat
deriving DecidableEq

/-- Modelled from the spec: the signed-token primitive (the external
`jsonwebtoken` library, not part of this repository).  A token is either a
well-formed signed credential or structurally corrupt; the signature is an
ideal MAC, identified by the secret and the claims it was computed over, so
`macSecret`/`macClaims` differing from the presented claims models
tampering or a wrong key. -/
inductive JwtToken where
  | signed (claims : JwtPayload) (macSecret : String) (macClaims : JwtPayload) : JwtToken
  | malformed (raw : String) : JwtToken

/-- Modelled from the spec: `jwt.sign` of the external `jsonwebtoken`
library — an honestly signed token over the given claims. -/
def jwtSign (claims : JwtPayload) (secret : String) : JwtToken :=
  .signed claims secret claims

/-- Modelled from the spec: `jwt.verify` of the external `jsonwebtoken`
library — reject structural corruption, signature mismatch, and expiry
(a token is expired once the clock reaches `exp`); otherwise yield the
claims.  Total: verification never raises. -/
def jwtVerify (token : JwtToken) (secret : String) (now : Nat) : Option JwtPayload :=
  match token with
  | .malformed _ => none
  | .signed claims macSecret macClaims =>
      if macSecret = secret ∧ macClaims = claims then
        if now < claims.exp then some claims else none
      else none

/-- The configuration-derived fields of `AuthService`
(`AuthService.ts` lines 24-35); the duration string is parsed to seconds
by the external library, represented here directly as seconds. -/
structure AuthService where
  secretKey : String
  tokenExpirySeconds : Nat

/-- `AuthService.generateToken` (`AuthService.ts` lines 43-45):
`jwt.sign({ username }, secretKey, { expiresIn: tokenExpiry })` at clock
time `now`. -/
def generateToken (svc : AuthService) (username : String) (now : Nat) : JwtToken :=
  jwtSign { username := username, exp := now + svc.tokenExpirySeconds } svc.secretKey

/-- `AuthService.verifyToken` (`AuthService.ts` lines 53-60): run
`jwt.verify` and return the embedded username, with the `try`/`catch`
turning every failure into `null`. -/
def verifyToken (svc : AuthService) (token : JwtToken) (now : Nat) : Option String :=
  match jwtVerify token svc.secretKey now with
  | some claims => some claims.username
  | none => none

/-! ## Helper lemmas -/

theorem lookupState_setState_ne (l : List (Nat × ReadyState)) (k c : Nat) (v : ReadyState)
    (h : c ≠ k) : lookupState (setState l k v) c = lookupState l c := by
  induction l with
  | nil => simp [setState, lookupState, Ne.symm h]
  | cons p rest ih =>
      by_cases hk : p.1 = k
      · simp [setState, hk, lookupState, Ne.symm h]
      · simp [setState, hk, lookupState, ih]

theorem readyStateOf_applyWsClose_ne (st : ControllerState) (sock c : Nat)
    (h : c ≠ sock) : readyStateOf (applyWsClose st sock) c = readyStateOf st c := by
  unfold applyWsClose
  cases readyStateOf st sock <;>
    simp [readyStateOf, lookupState_setState_ne _ _ _ _ h]

theorem applyWsClose_clients (st : ControllerState) (sock : Nat) :
    (applyWsClose st sock).clients = st.clients := by
  unfold applyWsClose
  cases readyStateOf st sock <;> rfl

theorem applyWsClose_wssClients (st : ControllerState) (sock : Nat) :
    (applyWsClose st sock).wssClients = st.wssClients := by
  unfold applyWsClose
  cases readyStateOf st sock <;> rfl

theorem mapGet_mapSet_self (l : List (Nat × String)) (k : Nat) (v : String) :
    mapGet (mapSet l k v) k = some v := by
  induction l with
  | nil => simp [mapSet, mapGet]
  | cons p rest ih =>
      by_cases hk : p.1 = k
      · simp [mapSet, hk, mapGet]
      · simp [mapSet, hk, mapGet, ih]

theorem lookupField_setField_self (fs : List (String × Json)) (key : String) (v : Json) :
    lookupField (setField fs key v) key = some v := by
  induction fs with
  | nil => simp [setField, lookupField]
  | cons p rest ih =>
      by_cases hk : p.1 = key
      · simp [setField, hk, lookupField]
      · simp [setField, hk, lookupField, ih]

theorem lookupField_setField_ne (fs : List (String × Json)) (key k : String) (v : Json)
    (h : k ≠ key) : lookupField (setField fs key v) k = lookupField fs k := by
  induction fs with
  | nil => simp [setField, lookupField, Ne.symm h]
  | cons p rest ih =>
      by_cases hk : p.1 = key
      · simp [setField, hk, lookupField, Ne.symm h]
      · simp [setField, hk, lookupField, ih]

theorem broadcast_no_close (st : ControllerState) (m : Json) (e : Effect)
    (he : e ∈ broadcastMessage st m) : isCloseEffect e = false := by
  unfold broadcastMessage at he
  rcases List.mem_append.mp he with h | h
  · rcases List.mem_map.mp h with ⟨c, _, rfl⟩
    rfl
  · simp at h
    subst h
    rfl

theorem seqTry_effects_mem (steps : List (List Effect × Bool)) (e : Effect)
    (he : e ∈ (seqTry steps).1) : ∃ s ∈ steps, e ∈ s.1 := by
  induction steps with
  | nil => simp [seqTry] at he
  | cons s rest ih =>
      by_cases h2 : s.2 = true
      · simp [seqTry, h2] at he
        exact ⟨s, by simp, he⟩
      · simp [seqTry, h2] at he
        rcases he with h | h
        · exact ⟨s, by simp, h⟩
        · rcases ih h with ⟨s1, hs1, hes1⟩
          exact ⟨s1, by simp [hs1], hes1⟩

theorem dispatch_no_close (st : ControllerState) (m : Json) (e : Effect)
    (he : e ∈ (dispatchMessage st m).1) : isCloseEffect e = false := by
  unfold dispatchMessage at he
  cases hM : st.onMessage with
  | some h =>
      rw [hM] at he
      simp at he
      subst he
      rfl
  | none =>
      rw [hM] at he
      rcases seqTry_effects_mem _ _ he with ⟨s, hs, hes⟩
      simp at hs
      rcases hs with h | h | h
      · subst h
        cases hb : st.beforeSend with
        | none => rw [hb] at hes; simp [hookStep] at hes
        | some f => rw [hb] at hes; simp [hookStep] at hes; subst hes; rfl
      · subst h
        exact broadcast_no_close st m e hes
      · subst h
        cases ha : st.afterSend with
        | none => rw [ha] at hes; simp [hookStep] at hes
        | some f => rw [ha] at hes; simp [hookStep] at hes; subst hes; rfl

theorem send_mem_broadcast (st : ControllerState) (m : Json) (c : Nat)
    (hc : c ∈ st.wssClients) (hopen : readyStateOf st c = .OPEN) :
    Effect.send c m ∈ broadcastMessage st m := by
  unfold broadcastMessage
  exact List.mem_append_left _
    (List.mem_map_of_mem _ (List.mem_filter.mpr ⟨hc, by simp [hopen]⟩))

theorem seqTry_three (s1 s3 : List Effect × Bool) (bc : List Effect)
    (h1 : s1.2 = false) :
    (seqTry [s1, (bc, false), s3]).1 = s1.1 ++ bc ++ s3.1 := by
  by_cases h3 : s3.2 = true
  · simp [seqTry, h1, h3, List.append_assoc]
  · simp [seqTry, h1, h3, List.append_assoc]

theorem hookStep_flag_false (h : Option Hook) (mark : Json → Effect) (m : Json)
    (hOk : hookOk h m) : (hookStep h mark m).2 = false := by
  cases hb : h with
  | none => rfl
  | some f => simpa [hookStep] using hOk f hb

theorem dispatch_effects_default (st : ControllerState) (m : Json)
    (hM : st.onMessage = none) (hB : hookOk st.beforeSend m) :
    (dispatchMessage st m).1 =
      (hookStep st.beforeSend Effect.callBeforeSend m).1 ++ broadcastMessage st m
        ++ (hookStep st.afterSend Effect.callAfterSend m).1 := by
  have h1 := hookStep_flag_false st.beforeSend Effect.callBeforeSend m hB
  simp [dispatchMessage, hM, seqTry_three _ _ _ h1]

theorem dispatchMessage_paths (st : ControllerState) (m : Json)
    (hB : hookOk st.beforeSend m) (hA : hookOk st.afterSend m) :
    dispatchMessage st m =
      match st.onMessage with
      | some h => ([Effect.callOnMessage m], hookFails h m)
      | none =>
          (hookMark st.beforeSend Effect.callBeforeSend m
             ++ broadcastMessage st m
             ++ hookMark st.afterSend Effect.callAfterSend m, false) := by
  cases hM : st.onMessage with
  | some h => simp [dispatchMessage, hM]
  | none =>
      cases hb : st.beforeSend with
      | none =>
          cases ha : st.afterSend with
          | none => simp [dispatchMessage, hM, hb, ha, seqTry, hookStep, hookMark]
          | some f =>
              have hf := hA f ha
              simp [dispatchMessage, hM, hb, ha, seqTry, hookStep, hookMark, hf]
      | some g =>
          have hg := hB g hb
          cases ha : st.afterSend with
          | none => simp [dispatchMessage, hM, hb, ha, seqTry, hookStep, hookMark, hg]
          | some f =>
              have hf := hA f ha
              simp [dispatchMessage, hM, hb, ha, seqTry, hookStep, hookMark, hg, hf]

theorem foldl_applyWsClose_clients (socks : List (Nat × String)) (st : ControllerState) :
    (socks.foldl (fun s p => applyWsClose s p.1) st).clients = st.clients := by
  induction socks generalizing st with
  | nil => rfl
  | cons p rest ih => rw [List.foldl_cons, ih, applyWsClose_clients]

theorem closeController_clients (st : ControllerState) :
    (closeController st).1.clients = st.clients := by
  simp [closeController, foldl_applyWsClose_clients]

theorem settleCloseEvents_clients (st : ControllerState) (socks : List (Nat × String)) :
    (settleCloseEvents st socks).clients =
      socks.foldl (fun l p => mapDelete l p.1) st.clients := by
  induction socks generalizing st with
  | nil => rfl
  | cons p rest ih =>
      show (settleCloseEvents ((onCloseEvent st p.1 p.2).1) rest).clients = _
      rw [ih]
      rfl

theorem foldl_mapDelete_all (ks : List (Nat × String)) (l : List (Nat × String))
    (h : ∀ p ∈ l, ∃ q ∈ ks, p.1 = q.1) :
    ks.foldl (fun acc q => mapDelete acc q.1) l = [] := by
  induction ks generalizing l with
  | nil =>
      cases l with
      | nil => rfl
      | cons p rest =>
          rcases h p (by simp) with ⟨q, hq, _⟩
          simp at hq
  | cons q rest ih =>
      show rest.foldl _ (mapDelete l q.1) = []
      apply ih
      intro p hp
      have hpl : p ∈ l ∧ (p.1 != q.1) = true := by
        simpa [mapDelete, List.mem_filter] using hp
      rcases h p hpl.1 with ⟨r, hr, hpr⟩
      rcases List.mem_cons.mp hr with heq | hr2
      · subst heq
        exact absurd hpr (by simpa using hpl.2)
      · exact ⟨r, hr2, hpr⟩

/-! ## Claims -/

/-- Claim C1: while no custom handler is configured (and the pre-hook, if
any, does not throw on the message), a valid object message received from a
connection bound to `user` is broadcast to every open peer as the stamped
message, whose `sender` field equals the bound identity `user` — the
client-supplied `sender` value is discarded — and whose every other field,
in particular `content`, is unchanged. -/
theorem broadcast_rebinds_sender (st : ControllerState) (sock : Nat) (user : String)
    (fields : List (String × Json))
    (hHandler : st.onMessage = none)
    (hB : hookOk st.beforeSend (Json.obj (setField fields "sender" (Json.str user)))) :
    (∀ c ∈ st.wssClients, readyStateOf st c = .OPEN →
        Effect.send c (Json.obj (setField fields "sender" (Json.str user)))
          ∈ (handleMessage st sock user (some (Json.obj fields))).2)
    ∧ (Json.obj (setField fields "sender" (Json.str user))).getField "sender"
        = some (Json.str user)
    ∧ (∀ key, key ≠ "sender" →
        (Json.obj (setField fields "sender" (Json.str user))).getField key
          = (Json.obj fields).getField key) := by
  refine ⟨?_, ?_, ?_⟩
  · intro c hc hopen
    have hmem : Effect.send c (Json.obj (setField fields "sender" (Json.str user)))
        ∈ (dispatchMessage st (Json.obj (setField fields "sender" (Json.str user)))).1 := by
      rw [dispatch_effects_default st _ hHandler hB]
      exact List.mem_append_left _
        (List.mem_append_right _ (send_mem_broadcast st _ c hc hopen))
    by_cases hr : (dispatchMessage st
        (Json.obj (setField fields "sender" (Json.str user)))).2 = true
    · simp [handleMessage, decodeFrame, stampSender, hr]
      exact Or.inl hmem
    · simp [handleMessage, decodeFrame, stampSender, hr]
      exact hmem
  · exact lookupField_setField_self fields "sender" (Json.str user)
  · intro key hkey
    exact lookupField_setField_ne fields "sender" key (Json.str user) hkey

/-- Witness for claim C1: identity "alice" sends a message with a forged
sender and anonymous peer 2 receives it with sender rebound to "alice". -/
theorem broadcast_rebinds_sender_witness :
    Effect.send 2 (Json.obj [("sender", Json.str "alice"), ("content", Json.str "hi")])
      ∈ (handleMessage
          { clients := [(1, "alice"), (2, "Anonymous")], wssClients := [1, 2],
            socketStates := [(1, .OPEN), (2, .OPEN)], acceptorOpen := true,
            beforeSend := none, afterSend := none, onMessage := none }
          1 "alice"
          (some (Json.obj [("sender", Json.str "forged"),
                           ("content", Json.str "hi")]))).2 := by
  have h := (broadcast_rebinds_sender
      { clients := [(1, "alice"), (2, "Anonymous")], wssClients := [1, 2],
        socketStates := [(1, .OPEN), (2, .OPEN)], acceptorOpen := true,
        beforeSend := none, afterSend := none, onMessage := none }
      1 "alice" [("sender", Json.str "forged"), ("content", Json.str "hi")]
      rfl (fun f hf => nomatch hf)).1 2 (by decide) rfl
  exact h

/-- Claim C2: an upgrade request with no token in the query parameters is
accepted and registered under the sentinel identity "Anonymous"; an upgrade
request whose token fails verification is answered with the
authentication-failed payload, closed with code 1008, and never added to
the registry. -/
theorem upgradeGate_anonymous_and_reject (verify : String → Option String)
    (st : ControllerState) (sock : Nat) (url : Option String) :
    (extractToken url = none →
       onConnection verify st sock url =
         ({ st with clients := mapSet st.clients sock "Anonymous" },
          [.logInfo ("User connected: " ++ "Anonymous")])
       ∧ mapGet (onConnection verify st sock url).1.clients sock = some "Anonymous")
    ∧ (∀ t, extractToken url = some t → t ≠ "" → verify t = none →
        onConnection verify st sock url =
          (applyWsClose st sock,
           [.send sock authFailedPayload,
            .closeConn sock (some 1008) (some "Authentication Failed"),
            .logWarn "WebSocket connection closed due to failed authentication."])
        ∧ (onConnection verify st sock url).1.clients = st.clients) := by
  constructor
  · intro h
    constructor
    · simp [onConnection, h, jsTruthyStr]
    · simp [onConnection, h, jsTruthyStr, mapGet_mapSet_self]
  · intro t ht hne hv
    have heq : onConnection verify st sock url =
        (applyWsClose st sock,
         [.send sock authFailedPayload,
          .closeConn sock (some 1008) (some "Authentication Failed"),
          .logWarn "WebSocket connection closed due to failed authentication."]) := by
      simp [onConnection, ht, jsTruthyStr, hne, hv]
    exact ⟨heq, by rw [heq]; exact applyWsClose_clients st sock⟩

/-- Witness for claim C2: a tokenless url is accepted anonymously; the url
`/?token=garbage` with a failing verifier is rejected with 1008 and leaves
the registry empty. -/
theorem upgradeGate_witness :
    onConnection (fun _ => none)
        { clients := [], wssClients := [7], socketStates := [(7, .OPEN)],
          acceptorOpen := true, beforeSend := none, afterSend := none,
          onMessage := none } 7 (some "/") =
      ({ clients := [(7, "Anonymous")], wssClients := [7],
         socketStates := [(7, .OPEN)], acceptorOpen := true,
         beforeSend := none, afterSend := none, onMessage := none },
       [.logInfo "User connected: Anonymous"])
    ∧ onConnection (fun _ => none)
        { clients := [], wssClients := [7], socketStates := [(7, .OPEN)],
          acceptorOpen := true, beforeSend := none, afterSend := none,
          onMessage := none } 7 (some "/?token=garbage") =
      ({ clients := [], wssClients := [7], socketStates := [(7, .CLOSING)],
         acceptorOpen := true, beforeSend := none, afterSend := none,
         onMessage := none },
       [.send 7 authFailedPayload,
        .closeConn 7 (some 1008) (some "Authentication Failed"),
        .logWarn "WebSocket connection closed due to failed authentication."]) := by
  constructor
  · exact ((upgradeGate_anonymous_and_reject (fun _ => none)
      { clients := [], wssClients := [7], socketStates := [(7, .OPEN)],
        acceptorOpen := true, beforeSend := none, afterSend := none,
        onMessage := none } 7 (some "/")).1 rfl).1
  · exact (((upgradeGate_anonymous_and_reject (fun _ => none)
      { clients := [], wssClients := [7], socketStates := [(7, .OPEN)],
        acceptorOpen := true, beforeSend := none, afterSend := none,
        onMessage := none } 7 (some "/?token=garbage")).2 "garbage" rfl
      (by decide) rfl).1).trans rfl

/-- Claim C3: a frame that fails structured decode makes the server log the
error, send the invalid-format payload back to the sender, and close that
connection; the registry, the client set and the ready state of every other
connection are untouched. -/
theorem decodeFailure_closes_only_sender (st : ControllerState) (sock : Nat)
    (user : String) (parsed : Option Json)
    (hfail : decodeFrame parsed user = none) :
    handleMessage st sock user parsed =
      (applyWsClose st sock,
       [.logError "Error parsing message",
        .send sock invalidJsonPayload,
        .closeConn sock none none])
    ∧ (handleMessage st sock user parsed).1.clients = st.clients
    ∧ (handleMessage st sock user parsed).1.wssClients = st.wssClients
    ∧ ∀ c, c ≠ sock →
        readyStateOf (handleMessage st sock user parsed).1 c = readyStateOf st c := by
  have he : handleMessage st sock user parsed =
      (applyWsClose st sock,
       [.logError "Error parsing message",
        .send sock invalidJsonPayload,
        .closeConn sock none none]) := by
    simp [handleMessage, hfail]
  refine ⟨he, ?_, ?_, ?_⟩
  · rw [he]; exact applyWsClose_clients st sock
  · rw [he]; exact applyWsClose_wssClients st sock
  · intro c hc
    rw [he]
    exact readyStateOf_applyWsClose_ne st sock c hc

/-- Witness for claim C3: the unparseable bytes `not json` make connection
1 receive the invalid-format payload and get closed while connection 2
stays open. -/
theorem decodeFailure_witness :
    handleMessage
      { clients := [(1, "Anonymous"), (2, "Anonymous")], wssClients := [1, 2],
        socketStates := [(1, .OPEN), (2, .OPEN)], acceptorOpen := true,
        beforeSend := none, afterSend := none, onMessage := none }
      1 "Anonymous" none =
    ({ clients := [(1, "Anonymous"), (2, "Anonymous")], wssClients := [1, 2],
       socketStates := [(1, .CLOSING), (2, .OPEN)], acceptorOpen := true,
       beforeSend := none, afterSend := none, onMessage := none },
     [.logError "Error parsing message",
      .send 1 invalidJsonPayload,
      .closeConn 1 none none]) := by
  have h := (decodeFailure_closes_only_sender
      { clients := [(1, "Anonymous"), (2, "Anonymous")], wssClients := [1, 2],
        socketStates := [(1, .OPEN), (2, .OPEN)], acceptorOpen := true,
        beforeSend := none, afterSend := none, onMessage := none }
      1 "Anonymous" none rfl).1
  exact h

/-- Claim C4: a message whose dispatch (hook, handler or broadcast) throws
is caught at the dispatch boundary: the error is logged, the internal-error
payload is sent to the sender, no close ever happens, and the controller
state is unchanged, so subsequent messages on the connection are processed
as before. -/
theorem processingFailure_keeps_connection (st : ControllerState) (sock : Nat)
    (user : String) (parsed : Option Json) (m : Json)
    (hdec : decodeFrame parsed user = some m)
    (hfail : (dispatchMessage st m).2 = true) :
    handleMessage st sock user parsed =
      (st, (dispatchMessage st m).1 ++
        [.logError "Error processing message", .send sock internalErrorPayload])
    ∧ (handleMessage st sock user parsed).1 = st
    ∧ ∀ c code reason,
        Effect.closeConn c code reason ∉ (handleMessage st sock user parsed).2 := by
  have he : handleMessage st sock user parsed =
      (st, (dispatchMessage st m).1 ++
        [.logError "Error processing message", .send sock internalErrorPayload]) := by
    simp [handleMessage, hdec, hfail]
  refine ⟨he, by rw [he], ?_⟩
  intro c code reason hmem
  rw [he] at hmem
  rcases List.mem_append.mp hmem with h | h
  · exact absurd (dispatch_no_close st m _ h) (by simp [isCloseEffect])
  · simp at h

/-- Witness for claim C4: a custom handler that throws leaves the state
unchanged and closes nothing. -/
theorem processingFailure_witness :
    (handleMessage
        { clients := [(1, "alice")], wssClients := [1], socketStates := [(1, .OPEN)],
          acceptorOpen := true, beforeSend := none, afterSend := none,
          onMessage := some (fun _ => Except.error ()) }
        1 "alice" (some (Json.obj [("content", Json.str "hi")]))).1 =
      { clients := [(1, "alice")], wssClients := [1], socketStates := [(1, .OPEN)],
        acceptorOpen := true, beforeSend := none, afterSend := none,
        onMessage := some (fun _ => Except.error ()) }
    ∧ ∀ c code reason, Effect.closeConn c code reason ∉
        (handleMessage
          { clients := [(1, "alice")], wssClients := [1], socketStates := [(1, .OPEN)],
            acceptorOpen := true, beforeSend := none, afterSend := none,
            onMessage := some (fun _ => Except.error ()) }
          1 "alice" (some (Json.obj [("content", Json.str "hi")]))).2 := by
  have h := processingFailure_keeps_connection
    { clients := [(1, "alice")], wssClients := [1], socketStates := [(1, .OPEN)],
      acceptorOpen := true, beforeSend := none, afterSend := none,
      onMessage := some (fun _ => Except.error ()) }
    1 "alice" (some (Json.obj [("content", Json.str "hi")]))
    (Json.obj [("content", Json.str "hi"), ("sender", Json.str "alice")])
    rfl rfl
  exact ⟨h.2.1, h.2.2⟩

/-- Claim C5: under the registry invariants of a reachable state (every
registry entry is a member of the client set, every open member of the
client set is registered), the broadcast pass writes the message to exactly
those sockets that are registered and in the `Open` state; a socket in any
other state receives nothing, and its presence never affects delivery to
the open ones. -/
theorem broadcast_fanout_exact (st : ControllerState) (m : Json)
    (hsub : ∀ p ∈ st.clients, p.1 ∈ st.wssClients)
    (hcov : ∀ c ∈ st.wssClients, readyStateOf st c = .OPEN →
        mapHasKey st.clients c = true) :
    ∀ c, Effect.send c m ∈ broadcastMessage st m ↔
      (mapHasKey st.clients c = true ∧ readyStateOf st c = .OPEN) := by
  intro c
  constructor
  · intro h
    unfold broadcastMessage at h
    rcases List.mem_append.mp h with h | h
    · rcases List.mem_map.mp h with ⟨c1, hc1, heq⟩
      injection heq with h1 h2
      rw [h1] at hc1
      rcases List.mem_filter.mp hc1 with ⟨hmem, hopen⟩
      have hopen1 : readyStateOf st c = .OPEN := by simpa using hopen
      exact ⟨hcov c hmem hopen1, hopen1⟩
    · simp at h
  · rintro ⟨hkey, hopen⟩
    have hex : ∃ p ∈ st.clients, p.1 = c := by
      simpa [mapHasKey, List.any_eq_true] using hkey
    rcases hex with ⟨p, hp, rfl⟩
    exact send_mem_broadcast st m p.1 (hsub p hp) hopen

/-- Witness for claim C5: with peers 1, 2 open and 3 mid-close, delivery
goes to 2 (registered and open) and is characterised as absent for 3. -/
theorem broadcast_fanout_witness :
    (Effect.send 2 (Json.str "x") ∈ broadcastMessage
        { clients := [(1, "alice"), (2, "Anonymous")], wssClients := [1, 2, 3],
          socketStates := [(1, .OPEN), (2, .OPEN), (3, .CLOSING)],
          acceptorOpen := true, beforeSend := none, afterSend := none,
          onMessage := none } (Json.str "x") ↔
      (mapHasKey [(1, "alice"), (2, "Anonymous")] 2 = true
        ∧ readyStateOf
            { clients := [(1, "alice"), (2, "Anonymous")], wssClients := [1, 2, 3],
              socketStates := [(1, .OPEN), (2, .OPEN), (3, .CLOSING)],
              acceptorOpen := true, beforeSend := none, afterSend := none,
              onMessage := none } 2 = .OPEN))
    ∧ (Effect.send 3 (Json.str "x") ∈ broadcastMessage
        { clients := [(1, "alice"), (2, "Anonymous")], wssClients := [1, 2, 3],
          socketStates := [(1, .OPEN), (2, .OPEN), (3, .CLOSING)],
          acceptorOpen := true, beforeSend := none, afterSend := none,
          onMessage := none } (Json.str "x") ↔
      (mapHasKey [(1, "alice"), (2, "Anonymous")] 3 = true
        ∧ readyStateOf
            { clients := [(1, "alice"), (2, "Anonymous")], wssClients := [1, 2, 3],
              socketStates := [(1, .OPEN), (2, .OPEN), (3, .CLOSING)],
              acceptorOpen := true, beforeSend := none, afterSend := none,
              onMessage := none } 3 = .OPEN)) := by
  refine ⟨?_, ?_⟩ <;>
    exact broadcast_fanout_exact _ (Json.str "x") (by decide) (by decide) _

/-- Claim C6 counterexample: the payload with fields `foo` only — which
decodes as JSON but lacks the sender/content envelope shape — is not
rejected before dispatch: the controller stamps it and broadcasts it
unchanged, with no error payload and no close. -/
theorem envelope_shape_not_validated_counterexample :
    handleMessage
      { clients := [(1, "alice")], wssClients := [1], socketStates := [(1, .OPEN)],
        acceptorOpen := true, beforeSend := none, afterSend := none, onMessage := none }
      1 "alice" (some (Json.obj [("foo", Json.num 1)])) =
    ({ clients := [(1, "alice")], wssClients := [1], socketStates := [(1, .OPEN)],
       acceptorOpen := true, beforeSend := none, afterSend := none, onMessage := none },
     [Effect.send 1 (Json.obj [("foo", Json.num 1), ("sender", Json.str "alice")]),
      Effect.logInfo "Broadcasted message from alice"]) := rfl

/-- Claim C6 amended: the pipeline performs no structural validation of the
decoded value beyond what the decode step itself (JSON.parse plus the
sender assignment) accepts: every decoded JSON object, whatever its fields,
is stamped and dispatched, and its `content` (like every other field) is
passed through opaquely, never inspected. -/
theorem decode_success_always_dispatches (st : ControllerState) (sock : Nat)
    (user : String) (fields : List (String × Json))
    (hHandler : st.onMessage = none)
    (hB : hookOk st.beforeSend (Json.obj (setField fields "sender" (Json.str user))))
    (hA : hookOk st.afterSend (Json.obj (setField fields "sender" (Json.str user)))) :
    handleMessage st sock user (some (Json.obj fields)) =
      (st,
       hookMark st.beforeSend Effect.callBeforeSend
           (Json.obj (setField fields "sender" (Json.str user)))
         ++ broadcastMessage st (Json.obj (setField fields "sender" (Json.str user)))
         ++ hookMark st.afterSend Effect.callAfterSend
              (Json.obj (setField fields "sender" (Json.str user)))) := by
  have hd := dispatchMessage_paths st
    (Json.obj (setField fields "sender" (Json.str user))) hB hA
  rw [hHandler] at hd
  simp [handleMessage, decodeFrame, stampSender, hd]

/-- Witness for claim C6 (amended theorem): an envelope without a `sender`
field is dispatched and broadcast unchanged apart from the stamp. -/
theorem decode_success_always_dispatches_witness :
    handleMessage
      { clients := [(1, "bob")], wssClients := [1], socketStates := [(1, .OPEN)],
        acceptorOpen := true, beforeSend := none, afterSend := none, onMessage := none }
      1 "bob" (some (Json.obj [("content", Json.str "hi")])) =
    ({ clients := [(1, "bob")], wssClients := [1], socketStates := [(1, .OPEN)],
       acceptorOpen := true, beforeSend := none, afterSend := none, onMessage := none },
     [Effect.send 1 (Json.obj [("content", Json.str "hi"), ("sender", Json.str "bob")]),
      Effect.logInfo "Broadcasted message from bob"]) := by
  have h := decode_success_always_dispatches
    { clients := [(1, "bob")], wssClients := [1], socketStates := [(1, .OPEN)],
      acceptorOpen := true, beforeSend := none, afterSend := none, onMessage := none }
    1 "bob" [("content", Json.str "hi")] rfl
    (fun f hf => nomatch hf) (fun f hf => nomatch hf)
  exact h

/-- Claim C7: dispatch takes exactly one of the two paths, decided per
message by checking handler presence: with a handler configured the
effects are exactly the handler invocation (no hook, no broadcast);
without one, the effects are the pre-hook marker (if the hook is present),
then the whole broadcast, then the post-hook marker (if present), in that
order. -/
theorem dispatch_exactly_one_path (st : ControllerState) (m : Json)
    (hB : hookOk st.beforeSend m) (hA : hookOk st.afterSend m) :
    dispatchMessage st m =
      match st.onMessage with
      | some h => ([Effect.callOnMessage m], hookFails h m)
      | none =>
          (hookMark st.beforeSend Effect.callBeforeSend m
             ++ broadcastMessage st m
             ++ hookMark st.afterSend Effect.callAfterSend m, false) :=
  dispatchMessage_paths st m hB hA

/-- Witness for claim C7: with a custom handler configured the dispatch
trace is exactly the handler call. -/
theorem dispatch_exactly_one_path_witness :
    dispatchMessage
      { clients := [(1, "alice")], wssClients := [1], socketStates := [(1, .OPEN)],
        acceptorOpen := true, beforeSend := none, afterSend := none,
        onMessage := some (fun _ => Except.ok ()) }
      (Json.obj [("sender", Json.str "alice"), ("content", Json.null)]) =
    ([Effect.callOnMessage
        (Json.obj [("sender", Json.str "alice"), ("content", Json.null)])], false) := by
  have h := dispatch_exactly_one_path
    { clients := [(1, "alice")], wssClients := [1], socketStates := [(1, .OPEN)],
      acceptorOpen := true, beforeSend := none, afterSend := none,
      onMessage := some (fun _ => Except.ok ()) }
    (Json.obj [("sender", Json.str "alice"), ("content", Json.null)])
    (fun f hf => nomatch hf) (fun f hf => nomatch hf)
  exact h

/-- Claim C8: verifying a token issued for `u` yields `u` strictly before
the expiry instant and fails from the expiry instant on; and verification
is a total function that fails (returns `none`, never raises) on structural
corruption and on any signature mismatch. -/
theorem token_roundtrip_and_totality (svc : AuthService) (u : String) (now t : Nat) :
    (t < now + svc.tokenExpirySeconds →
        verifyToken svc (generateToken svc u now) t = some u)
    ∧ (now + svc.tokenExpirySeconds ≤ t →
        verifyToken svc (generateToken svc u now) t = none)
    ∧ (∀ raw, verifyToken svc (JwtToken.malformed raw) t = none)
    ∧ (∀ claims macSecret macClaims,
        macSecret ≠ svc.secretKey ∨ macClaims ≠ claims →
        verifyToken svc (JwtToken.signed claims macSecret macClaims) t = none) := by
  refine ⟨?_, ?_, ?_, ?_⟩
  · intro h
    simp [verifyToken, generateToken, jwtSign, jwtVerify, h]
  · intro h
    simp [verifyToken, generateToken, jwtSign, jwtVerify, Nat.not_lt.mpr h]
  · intro raw
    rfl
  · rintro claims ms mc (h | h) <;> simp [verifyToken, jwtVerify, h]

/-- Witness for claim C8: a token for "alice" verifies before expiry and
fails at the expiry instant. -/
theorem token_roundtrip_witness :
    verifyToken ⟨"default_secret", 3600⟩
      (generateToken ⟨"default_secret", 3600⟩ "alice" 0) 10 = some "alice"
    ∧ verifyToken ⟨"default_secret", 3600⟩
      (generateToken ⟨"default_secret", 3600⟩ "alice" 0) 3600 = none :=
  ⟨(token_roundtrip_and_totality ⟨"default_secret", 3600⟩ "alice" 0 10).1 (by decide),
   (token_roundtrip_and_totality ⟨"default_secret", 3600⟩ "alice" 0 3600).2.1 (by decide)⟩

/-- Claim C9: shutdown closes every connection registered at the time of
the sweep with code 1001 and the fixed reason, closes the acceptor only
after all those closes, and once the started close handshakes complete the
registry is empty. -/
theorem shutdown_closes_all (st : ControllerState) :
    (closeController st).2 =
      st.clients.map
          (fun p => Effect.closeConn p.1 (some 1001) (some "Server shutting down"))
        ++ [Effect.closeAcceptor, Effect.logWarn "WebSocket server closed."]
    ∧ (∀ p ∈ st.clients,
        Effect.closeConn p.1 (some 1001) (some "Server shutting down")
          ∈ (closeController st).2)
    ∧ (settleCloseEvents (closeController st).1 st.clients).clients = [] := by
  refine ⟨rfl, ?_, ?_⟩
  · intro p hp
    exact List.mem_append_left _ (List.mem_map_of_mem _ hp)
  · rw [settleCloseEvents_clients, closeController_clients]
    apply foldl_mapDelete_all
    intro p hp
    exact ⟨p, hp, rfl⟩

/-- Witness for claim C9: with three anonymous connections, connection 2
receives close 1001 and the registry is empty once the handshakes
complete. -/
theorem shutdown_witness :
    Effect.closeConn 2 (some 1001) (some "Server shutting down")
      ∈ (closeController
          { clients := [(1, "Anonymous"), (2, "Anonymous"), (3, "Anonymous")],
            wssClients := [1, 2, 3],
            socketStates := [(1, .OPEN), (2, .OPEN), (3, .OPEN)],
            acceptorOpen := true, beforeSend := none, afterSend := none,
            onMessage := none }).2
    ∧ (settleCloseEvents
        (closeController
          { clients := [(1, "Anonymous"), (2, "Anonymous"), (3, "Anonymous")],
            wssClients := [1, 2, 3],
            socketStates := [(1, .OPEN), (2, .OPEN), (3, .OPEN)],
            acceptorOpen := true, beforeSend := none, afterSend := none,
            onMessage := none }).1
        [(1, "Anonymous"), (2, "Anonymous"), (3, "Anonymous")]).clients = [] := by
  have h := shutdown_closes_all
    { clients := [(1, "Anonymous"), (2, "Anonymous"), (3, "Anonymous")],
      wssClients := [1, 2, 3],
      socketStates := [(1, .OPEN), (2, .OPEN), (3, .OPEN)],
      acceptorOpen := true, beforeSend := none, afterSend := none,
      onMessage := none }
  exact ⟨h.2.1 (2, "Anonymous") (by decide), h.2.2⟩

/-- Claim C10: `setLifecycleHooks` unconditionally overwrites both hook
fields with its two arguments — so an omitted argument clears the
corresponding hook, including one supplied at construction time — and
leaves the custom handler and every other piece of controller state
unchanged. -/
theorem setLifecycleHooks_overwrites_both (st : ControllerState)
    (b a : Option Hook) (config : Config) :
    (setLifecycleHooks st b a).beforeSend = b
    ∧ (setLifecycleHooks st b a).afterSend = a
    ∧ (setLifecycleHooks st b a).onMessage = st.onMessage
    ∧ (setLifecycleHooks st b a).clients = st.clients
    ∧ (setLifecycleHooks st b a).wssClients = st.wssClients
    ∧ (setLifecycleHooks st b a).socketStates = st.socketStates
    ∧ (setLifecycleHooks st b a).acceptorOpen = st.acceptorOpen
    ∧ (setLifecycleHooks (mkController config) none none).beforeSend = none
    ∧ (setLifecycleHooks (mkController config) none none).afterSend = none
    ∧ (setLifecycleHooks (mkController config) none none).onMessage = config.onMessage :=
  ⟨rfl, rfl, rfl, rfl, rfl, rfl, rfl, rfl, rfl, rfl⟩

end TsWebSocket
